import Mathlib

/-
Verification of the price-reconciliation engine of the apple_price_updater
repository: the resource resolution, price-point pagination and price-update
submission of the API route handler (src/unnamed/part_000), and the
BulkReconciler front end — CSV parsing, price matching and the bulk loop.
The bulk-modal component is not part of the staged source, so its
definitions are modelled from the spec (§4.3, §4.5) and carry doc comments
starting `Modelled from the spec:`.

Modelling conventions:
* JavaScript numbers are modelled exactly: finite values as rationals (ℚ) and
  the two infinities explicitly (`JsNumber`).  No claim under verification
  depends on float rounding.
* JavaScript strings are Lean `String`s; `split` and `trim` are modelled
  character-for-character after their ECMAScript behaviour.
* `fetch` calls are an environment: each endpoint contacted is a field of an
  environment structure returning `Except _ _`, where `Except.error` stands
  for a network failure or a non-2xx response.
* A thrown JavaScript `Error` is `Except.error` of a structured error value.
-/

set_option linter.unusedVariables false

deriving instance DecidableEq for Except

/-- A JavaScript number that is not NaN: a finite rational or a signed
infinity.  `infinite true` is `-Infinity`. -/
inductive JsNumber where
  | finite (q : ℚ)
  | infinite (neg : Bool)
deriving DecidableEq, Repr

/-- Characters treated as whitespace by `String.prototype.trim` (ASCII
portion; the Unicode additions never appear in the verified inputs). -/
def isJsWhitespace (c : Char) : Bool :=
  c = ' ' ∨ c = '\t' ∨ c = '\n' ∨ c = '\r' ∨ c = '\x0b' ∨ c = '\x0c'

/-- JS `String.prototype.trim`. -/
def jsTrim (s : String) : String :=
  String.mk (((s.toList.dropWhile isJsWhitespace).reverse.dropWhile isJsWhitespace).reverse)

/-- JS `String.prototype.split` with a single-character separator, on the
character list: empty segments are kept, and splitting the empty string gives
one empty segment. -/
def splitChars (sep : Char) : List Char → List (List Char)
  | [] => [[]]
  | c :: rest =>
    let r := splitChars sep rest
    if c = sep then [] :: r
    else
      match r with
      | [] => [[c]]
      | h :: t => (c :: h) :: t

/-- JS `String.prototype.split` with a single-character separator. -/
def jsSplit (sep : Char) (s : String) : List String :=
  (splitChars sep s.toList).map String.mk

/-- `split(sep)[0]`: the first segment (JS indexing into the split result). -/
def jsSplitHead (sep : Char) (s : String) : String :=
  match jsSplit sep s with
  | h :: _ => h
  | [] => ""

def isAsciiDigit (c : Char) : Bool :=
  '0' ≤ c ∧ c ≤ '9'

/-- Numeric value of a list of decimal digit characters (most significant
first). -/
def natOfDigits (l : List Char) : Nat :=
  l.foldl (fun n c => n * 10 + (c.toNat - '0'.toNat)) 0

/-- Consume an optional leading `+`/`-` sign; returns (negative?, rest). -/
def parseSign : List Char → Bool × List Char
  | '+' :: r => (false, r)
  | '-' :: r => (true, r)
  | r => (false, r)

/-- Modelled from the spec: the bulk parser's price test, the bulk-modal
component being absent from the staged source.  §4.5 keeps a line only when
its price field "parses as a finite decimal number": an optional sign, then
decimal digits with at most one decimal point and at least one digit, and
nothing else in the (already trimmed) field. -/
def parseDecimal (s : String) : Option ℚ :=
  let (neg, r) := parseSign s.toList
  let ds := r.takeWhile isAsciiDigit
  let r2 := r.dropWhile isAsciiDigit
  let fds := match r2 with | '.' :: rest => rest.takeWhile isAsciiDigit | _ => []
  let r3 := match r2 with | '.' :: rest => rest.dropWhile isAsciiDigit | _ => r2
  if r3 = [] ∧ ¬(ds = [] ∧ fds = []) then
    let v : ℚ := (natOfDigits ds : ℚ) + (natOfDigits fds : ℚ) / ((10 : ℚ) ^ fds.length)
    some (if neg then -v else v)
  else none

/-- Decimal digit to character. -/
def digitChar (d : Nat) : Char :=
  if d = 0 then '0' else if d = 1 then '1' else if d = 2 then '2'
  else if d = 3 then '3' else if d = 4 then '4' else if d = 5 then '5'
  else if d = 6 then '6' else if d = 7 then '7' else if d = 8 then '8'
  else if d = 9 then '9' else '#'

/-- Decimal digit characters of `n`, most significant first (fuel-based so it
reduces in the kernel). -/
def natDigitCharsAux : Nat → Nat → List Char
  | 0, _ => []
  | _ + 1, 0 => []
  | fuel + 1, n => natDigitCharsAux fuel (n / 10) ++ [digitChar (n % 10)]

def natDigitChars (n : Nat) : List Char :=
  if n = 0 then ['0'] else natDigitCharsAux n n

def natDigitString (n : Nat) : String :=
  String.mk (natDigitChars n)

/-- Rendering of a JS number into an error string.  The exact digit sequence
JS produces is irrelevant to every claim (no claim inspects the digits of the
price inside an error message); finite non-integers are rendered as
numerator/denominator. -/
def jsNumberToString : JsNumber → String
  | JsNumber.infinite true => "-Infinity"
  | JsNumber.infinite false => "Infinity"
  | JsNumber.finite q =>
    (if q.num < 0 then "-" else "") ++ natDigitString q.num.natAbs ++
      (if q.den = 1 then "" else "/" ++ natDigitString q.den)

/-! ## BulkReconciler data model (spec §3, §4.5) — the bulk-modal component
is absent from the staged source; this part is modelled from the spec -/

/-- Modelled from the spec: one parsed bulk-edit line (`BulkEditLine` of §3):
a territory code and the desired decimal price, a JS number. -/
structure TerritoryPriceInput where
  territory : String
  desiredPrice : JsNumber
deriving DecidableEq, Repr

/-- A price-point candidate as the matcher receives it: vendor-assigned id,
decimal customer price and currency (`PricePoint` of §3, scoped to one
territory). -/
structure PricePointOption where
  id : String
  customerPrice : ℚ
  currency : String
deriving DecidableEq, Repr

/-! ## BulkReconciler parsing (spec §4.5), modelled from the spec -/

/-- Modelled from the spec: the tolerant CSV parse of §4.5, the bulk-modal
component being absent from the staged source — split `rawText` into lines,
trim each, drop blank lines; split each remaining line on the comma into
exactly two trimmed fields and keep it when the price field parses as a
finite decimal number, silently dropping every other line. -/
def parseCsv (text : String) : List TerritoryPriceInput :=
  let lines := ((jsSplit '\n' text).map jsTrim).filter (fun l => !(l = ""))
  lines.foldl
    (fun result line =>
      match (jsSplit ',' line).map jsTrim with
      | [territory, priceField] =>
        match parseDecimal priceField with
        | some q => result ++ [⟨territory, JsNumber.finite q⟩]
        | none => result
      | _ => result)
    []

/-- `Math.abs` on a finite value. -/
def ratAbs (q : ℚ) : ℚ :=
  if q < 0 then -q else q

/-- Absolute difference of the desired JS number and a candidate's customer
price: the difference of an infinity and a finite value is `+Infinity`. -/
def jsAbsDiff (d : JsNumber) (p : ℚ) : JsNumber :=
  match d with
  | JsNumber.finite q => JsNumber.finite (ratAbs (q - p))
  | JsNumber.infinite _ => JsNumber.infinite false

/-- JS `<` on non-NaN numbers. -/
def jsLt : JsNumber → JsNumber → Bool
  | JsNumber.finite a, JsNumber.finite b => a < b
  | JsNumber.finite _, JsNumber.infinite neg => !neg
  | JsNumber.infinite neg, JsNumber.finite _ => neg
  | JsNumber.infinite n1, JsNumber.infinite n2 => n1 && !n2

/-- Modelled from the spec: the matcher's linear scan (§4.3) — keep the
current best, replacing it only when a strictly smaller difference is
found. -/
def pickPP (d : JsNumber) (best : PricePointOption) : List PricePointOption → PricePointOption
  | [] => best
  | pp :: rest =>
    if jsLt (jsAbsDiff d pp.customerPrice) (jsAbsDiff d best.customerPrice) then pickPP d pp rest
    else pickPP d best rest

/-- Modelled from the spec: `PriceMatcher.match` (§4.3) — the minimum
difference is initialized from the first candidate and the scan runs over
the whole list; on an empty candidate set the matcher fails with
`EmptyCandidateSet`, modelled as `none`. -/
def findClosestPricePoint (d : JsNumber) : List PricePointOption → Option PricePointOption
  | [] => none
  | first :: rest => some (pickPP d first (first :: rest))

/-- Generic form of the matcher's loop over a ℚ-valued measure, used to state
its specification. -/
def pickBy {α : Type} (f : α → ℚ) (b : α) : List α → α
  | [] => b
  | a :: l => if f a < f b then pickBy f a l else pickBy f b l

/-- Modelled from the spec: the two vendor interactions of one bulk line —
the per-territory catalog fetch, whose failure (network or non-success
response) carries the thrown error's message (§4.2, §7), and the update
submission, whose failure carries the message the loop formats (§4.4). -/
structure BulkEnv where
  fetchPricePoints : String → Except String (List PricePointOption)
  updateResult : String → String → Except String Unit

/-- The message of the error recorded for a territory whose catalog is empty
(§4.5 step 3). -/
def noPricePointsMsg (territory : String) : String :=
  "No price points found for territory " ++ territory

/-- Modelled from the spec: steps 2-4 of one bulk-line iteration (§4.5) —
fetch the catalog, a failure propagating its own message to the catch of
step 5; record the no-price-points error when the catalog is empty; otherwise
match the desired price and submit the update.  The `"EmptyCandidateSet"`
branch is unreachable: the matcher is never invoked with an empty set. -/
def tryLine (env : BulkEnv) (line : TerritoryPriceInput) : Except String Unit :=
  match env.fetchPricePoints line.territory with
  | Except.error msg => Except.error msg
  | Except.ok pricePoints =>
    if pricePoints.length = 0 then Except.error (noPricePointsMsg line.territory)
    else
      match findClosestPricePoint line.desiredPrice pricePoints with
      | none => Except.error "EmptyCandidateSet"
      | some bestMatch => env.updateResult line.territory bestMatch.id

/-- The line-level error string: `` `${territory} => ${desiredPrice}: ${err?.message}` ``. -/
def mkLineError (territory : String) (desiredPrice : JsNumber) (msg : String) : String :=
  territory ++ " => " ++ jsNumberToString desiredPrice ++ ": " ++ msg

/-- Mutable state of the bulk loop: the success counter, the error list,
and, per processed line in order, whether the fixed pause ran after it. -/
structure BulkState where
  succeeded : Nat
  errors : List String
  delayed : List Bool
deriving DecidableEq, Repr

/-- Modelled from the spec: one iteration of the bulk loop (§4.5 steps 5-6)
— on success increment the success counter; on any failure catch it, format
`<territory> => <desiredPrice>: <message>` and append it; then, after each
line, success or failure, pause for the fixed interval (recorded in
`delayed`). -/
def bulkStep (env : BulkEnv) (st : BulkState) (line : TerritoryPriceInput) : BulkState :=
  let st2 := match tryLine env line with
    | Except.ok _ => { st with succeeded := st.succeeded + 1 }
    | Except.error msg =>
      { st with errors := st.errors ++ [mkLineError line.territory line.desiredPrice msg] }
  { st2 with delayed := st2.delayed ++ [true] }

/-- The batch report (`BulkEditOutcome` of the spec): `processed` is
`totalCount` (the number of parsed lines), `succeeded` is `doneCount`. -/
structure BulkEditOutcome where
  processed : Nat
  succeeded : Nat
  errors : List String
  delayed : List Bool
deriving DecidableEq, Repr

/-- Modelled from the spec: the bulk loop over the already-parsed lines,
strictly sequential (§4.5); `processed` is the number of parsed lines. -/
def runBulkLines (env : BulkEnv) (lines : List TerritoryPriceInput) : BulkEditOutcome :=
  let final := lines.foldl (bulkStep env) ⟨0, [], []⟩
  ⟨lines.length, final.succeeded, final.errors, final.delayed⟩

/-- Modelled from the spec: `BulkReconciler.run` — parse the raw text, then
run the loop over the parsed lines. -/
def handleBulkEdit (env : BulkEnv) (csvText : String) : BulkEditOutcome :=
  runBulkLines env (parseCsv csvText)

/-- A non-success vendor response: HTTP status and response body text. -/
structure UpstreamError where
  status : Nat
  body : String
deriving DecidableEq, Repr

/-- A thrown route-handler error.  `upstream context st body` models
`` new Error(`${context}: ${st} ${body}`) ``; `message` a plain
`new Error(msg)`; `resourceNotFound` the
`'Could not find associated subscription for this IAP'` error. -/
inductive JsError where
  | upstream (context : String) (status : Nat) (body : String)
  | message (msg : String)
  | resourceNotFound
deriving DecidableEq, Repr

/-- The attributes of `GET /v1/inAppPurchases/{id}` the code reads. -/
structure IapDetails where
  inAppPurchaseType : String
  productId : String
deriving DecidableEq, Repr

/-- One entry of `GET /v1/subscriptionGroups/{id}/subscriptions`: the
subscription's resource id and its `attributes.productId`. -/
structure SubInfo where
  id : String
  productId : String
deriving DecidableEq, Repr

/-- One page of the paginated price-points response: its `data` array and the
presence of a `links.next` URL (as an abstract page token). -/
structure Page where
  data : List PricePointOption
  next : Option Nat
deriving DecidableEq, Repr

/-- The vendor write payloads (`POST` bodies) built by `updatePrice`.  The
two constructors are the two mutually exclusive shapes; only the subscription
shape carries the `preserveCurrentPrice` flag. -/
inductive UpdatePayload where
  | subscriptionPrice (startDate : String) (preserveCurrentPrice : Bool)
      (subscriptionId : String) (pricePointId : String)
  | inAppPurchasePrice (startDate : String) (territory : String) (pricePointId : String)
deriving DecidableEq, Repr

/-- The endpoint a price update is POSTed to: `/v1/subscriptionPrices`, or
`/v1/inAppPurchases/{iapId}/prices` (which references the product id). -/
inductive Endpoint where
  | subscriptionPrices
  | inAppPurchasePrices (iapId : String)
deriving DecidableEq, Repr

/-- The vendor API as the route handler sees it.  Each field is one of the
endpoints contacted; `Except.error` is a non-success response.
`ppNextPages` is the sequence of responses the successive `links.next`
fetches of one price-points call receive. -/
structure VendorEnv where
  iapDetails : String → Except UpstreamError IapDetails
  groupsList : Except UpstreamError (List String)
  groupSubs : String → Except UpstreamError (List SubInfo)
  prices : String → String → Except UpstreamError (List String)
  ppFirstPage : Bool → String → String → Except UpstreamError Page
  ppNextPages : List (Except UpstreamError Page)
  post : Endpoint → UpdatePayload → Except UpstreamError Unit

/-- The subscription-group scan shared verbatim by `getCurrentPrices`,
`fetchPricePointsForIAPAndTerritory`, `updatePrice` and the GET handler:
walk the groups in vendor order; a group whose subscriptions listing fails is
skipped (`if (!subsResp.ok) continue`); in a listed group, look for a
subscription whose `productId` matches; on the first match stop (`break`).
Returns the found subscription id and the list of groups queried, in order. -/
def scanGroups (env : VendorEnv) (productId : String) :
    List String → Option String × List String
  | [] => (none, [])
  | g :: gs =>
    match env.groupSubs g with
    | Except.error _ =>
      let r := scanGroups env productId gs
      (r.1, g :: r.2)
    | Except.ok subs =>
      match subs.find? (fun sub => sub.productId == productId) with
      | some matchingSub => (some matchingSub.id, [g])
      | none =>
        let r := scanGroups env productId gs
        (r.1, g :: r.2)

/-- The purchase type string for auto-renewable subscriptions. -/
def subscriptionType : String := "AUTOMATICALLY_RENEWABLE_SUBSCRIPTION"

/-- Result of `getCurrentPrices`: the prices payload plus, for observability
of which endpoint was contacted, the resource type/id the prices were fetched
from and the groups whose subscriptions were listed. -/
structure CurrentPricesResult where
  data : List String
  iapType : String
  resourceType : String
  resourceId : String
  queriedGroups : List String
deriving DecidableEq, Repr

/-- Final step of `getCurrentPrices`: fetch the prices from the resolved
resource. -/
def fetchPricesStep (env : VendorEnv) (iapType resourceType resourceId : String)
    (queriedGroups : List String) : Except JsError CurrentPricesResult :=
  match env.prices resourceType resourceId with
  | Except.error e =>
    Except.error (JsError.upstream "Failed to fetch current prices" e.status e.body)
  | Except.ok priceData =>
    Except.ok ⟨priceData, iapType, resourceType, resourceId, queriedGroups⟩

/-- `getCurrentPrices` (lines 114-190): fetch the IAP details; for a
subscription, list the groups and scan them; `resourceId` starts as `iapId`
and is replaced only on a match, and the not-found guard tests the JS
falsiness of `resourceId` (`if (!resourceId)`), i.e. whether it is the empty
string; then fetch the prices from the resolved resource. -/
def getCurrentPrices (env : VendorEnv) (iapId : String) :
    Except JsError CurrentPricesResult :=
  match env.iapDetails iapId with
  | Except.error e =>
    Except.error (JsError.upstream "Failed to fetch IAP details" e.status e.body)
  | Except.ok iapData =>
    if iapData.inAppPurchaseType = subscriptionType then
      match env.groupsList with
      | Except.error e =>
        Except.error (JsError.upstream "Failed to fetch subscription groups" e.status e.body)
      | Except.ok groups =>
        let scanned := scanGroups env iapData.productId groups
        let resourceId := match scanned.1 with
          | some subId => subId
          | none => iapId
        let resourceType := match scanned.1 with
          | some _ => "subscriptions"
          | none => "inAppPurchases"
        if resourceId = "" then Except.error JsError.resourceNotFound
        else fetchPricesStep env iapData.inAppPurchaseType resourceType resourceId scanned.2
    else fetchPricesStep env iapData.inAppPurchaseType "inAppPurchases" iapId []

/-- `links.next` following of `fetchPricePointsForIAPAndTerritory`
(lines 241-252): while a next link is present, fetch it; a non-success
response breaks out of the loop keeping what was fetched so far; otherwise
append the page's data and continue with its next link. -/
def followPages : List PricePointOption → Option Nat → List (Except UpstreamError Page) →
    List PricePointOption
  | acc, none, _ => acc
  | acc, some _, [] => acc
  | acc, some _, Except.error _ :: _ => acc
  | acc, some _, Except.ok page :: rest => followPages (acc ++ page.data) page.next rest

/-- The pagination of one price-points call: the first page's failure fails
the call; later pages are followed and merged by `followPages`. -/
def fetchAllPricePoints (firstResponse : Except UpstreamError Page)
    (nextResponses : List (Except UpstreamError Page)) :
    Except UpstreamError (List PricePointOption) :=
  match firstResponse with
  | Except.error e => Except.error e
  | Except.ok page => Except.ok (followPages page.data page.next nextResponses)

/-- Result of `fetchPricePointsForIAPAndTerritory`, with the resolved
resource id and queried groups exposed for observability. -/
structure PPFetchResult where
  pricePoints : List PricePointOption
  resourceId : String
  isSubscription : Bool
  queriedGroups : List String
deriving DecidableEq, Repr

/-- Price-points fetch step shared by both branches of
`fetchPricePointsForIAPAndTerritory`. -/
def fetchPPStep (env : VendorEnv) (isSubscription : Bool) (resourceId iapId territory : String)
    (queriedGroups : List String) : Except JsError PPFetchResult :=
  let endpointId := if isSubscription then resourceId else iapId
  match fetchAllPricePoints (env.ppFirstPage isSubscription endpointId territory)
      env.ppNextPages with
  | Except.error e =>
    Except.error (JsError.upstream "Failed to fetch price points" e.status e.body)
  | Except.ok allPricePoints =>
    Except.ok ⟨allPricePoints.map (fun pp => ⟨pp.id, pp.customerPrice, pp.currency⟩),
      resourceId, isSubscription, queriedGroups⟩

/-- `fetchPricePointsForIAPAndTerritory` (lines 192-259): fetch the IAP
details (plain error message, no status text); for a subscription, list the
groups and scan them — with **no** not-found check: when no group matches,
`resourceId` silently stays `iapId`; then fetch the price points (for the
non-subscription endpoint the URL uses `iapId` itself) following pagination. -/
def fetchPricePointsForIAPAndTerritory (env : VendorEnv) (iapId territory : String) :
    Except JsError PPFetchResult :=
  match env.iapDetails iapId with
  | Except.error _ => Except.error (JsError.message "Failed to fetch IAP details")
  | Except.ok iapData =>
    if iapData.inAppPurchaseType = subscriptionType then
      match env.groupsList with
      | Except.error _ => Except.error (JsError.message "Failed to fetch subscription groups")
      | Except.ok groups =>
        let scanned := scanGroups env iapData.productId groups
        let resourceId := match scanned.1 with
          | some subId => subId
          | none => iapId
        fetchPPStep env true resourceId iapId territory scanned.2
    else fetchPPStep env false iapId iapId territory []

/-! ## Date model for `updatePrice` -/

/-- Gregorian calendar date of a day count since 1970-01-01 (UTC), as
(year, month, day); the standard civil-from-days algorithm. -/
def civilFromDays (day : Nat) : Nat × Nat × Nat :=
  let z := day + 719468
  let era := z / 146097
  let doe := z % 146097
  let yoe := (doe - doe / 1460 + doe / 36524 - doe / 146096) / 365
  let y := yoe + era * 400
  let doy := doe - (365 * yoe + yoe / 4 - yoe / 100)
  let mp := (5 * doy + 2) / 153
  let d := doy - (153 * mp + 2) / 5 + 1
  let m := if mp < 10 then mp + 3 else mp - 9
  (y + (if m ≤ 2 then 1 else 0), m, d)

/-- Left-pad a digit string with zeros. -/
def padNum (width n : Nat) : List Char :=
  let ds := natDigitChars n
  List.replicate (width - ds.length) '0' ++ ds

/-- The `YYYY-MM-DD` character rendering of a day count since the epoch. -/
def civilDateChars (day : Nat) : List Char :=
  let ymd := civilFromDays day
  padNum 4 ymd.1 ++ '-' :: padNum 2 ymd.2.1 ++ '-' :: padNum 2 ymd.2.2

/-- The `HH:MM:SS.mmm` rendering of the seconds within a day (milliseconds
are always zero in this second-resolution model). -/
def timeOfDayChars (secondsOfDay : Nat) : List Char :=
  padNum 2 (secondsOfDay / 3600) ++ ':' :: padNum 2 (secondsOfDay % 3600 / 60) ++
    ':' :: padNum 2 (secondsOfDay % 60) ++ ['.', '0', '0', '0']

/-- `Date.prototype.toISOString` of an instant given as seconds since the
epoch (UTC): the calendar date, a `'T'`, the time of day, and `'Z'`. -/
def jsToISOString (secs : Nat) : String :=
  String.mk (civilDateChars (secs / 86400) ++ 'T' :: (timeOfDayChars (secs % 86400) ++ ['Z']))

/-- The computed start date of `updatePrice` (lines 272-275): two days are
added to the current instant and the ISO string is cut at the `'T'`
(`toISOString().split('T')[0]`), leaving the calendar date only. -/
def startDateString (now : Nat) : String :=
  jsSplitHead 'T' (jsToISOString (now + 2 * 86400))

/-- POST submission step of `updatePrice`: on success the endpoint and
payload that were submitted are returned. -/
def submitPayload (env : VendorEnv) (endpoint : Endpoint) (payload : UpdatePayload) :
    Except JsError (Endpoint × UpdatePayload) :=
  match env.post endpoint payload with
  | Except.error e => Except.error (JsError.upstream "Failed to update price" e.status e.body)
  | Except.ok _ => Except.ok (endpoint, payload)

/-- `updatePrice` (lines 265-387): compute the start date as now plus two
days, date part only; fetch the IAP details; for a subscription find the
subscription id through the groups, where `subscriptionId` starts as the
empty string and the not-found guard (`if (!subscriptionId)`) really fires;
then POST the resource-kind-specific payload to the resource-kind-specific
endpoint. -/
def updatePrice (env : VendorEnv) (now : Nat) (iapId territory pricePointId : String)
    (preserveCurrentPrice : Bool) : Except JsError (Endpoint × UpdatePayload) :=
  let formattedStartDate := startDateString now
  match env.iapDetails iapId with
  | Except.error e =>
    Except.error (JsError.upstream "Failed to fetch IAP details" e.status e.body)
  | Except.ok iapData =>
    if iapData.inAppPurchaseType = subscriptionType then
      match env.groupsList with
      | Except.error e =>
        Except.error (JsError.upstream "Failed to fetch subscription groups" e.status e.body)
      | Except.ok groups =>
        let scanned := scanGroups env iapData.productId groups
        let subscriptionId := match scanned.1 with
          | some subId => subId
          | none => ""
        if subscriptionId = "" then Except.error JsError.resourceNotFound
        else
          submitPayload env Endpoint.subscriptionPrices
            (UpdatePayload.subscriptionPrice formattedStartDate preserveCurrentPrice
              subscriptionId pricePointId)
    else
      submitPayload env (Endpoint.inAppPurchasePrices iapId)
        (UpdatePayload.inAppPurchasePrice formattedStartDate territory pricePointId)

/-! ## Concrete environments used to evaluate the code at specific inputs -/

/-- A vendor environment whose read endpoints fail and whose writes succeed;
concrete scenarios override the fields they exercise. -/
def baseVendorEnv : VendorEnv where
  iapDetails := fun _ => Except.error ⟨0, ""⟩
  groupsList := Except.error ⟨0, ""⟩
  groupSubs := fun _ => Except.error ⟨0, ""⟩
  prices := fun _ _ => Except.ok []
  ppFirstPage := fun _ _ _ => Except.ok ⟨[], none⟩
  ppNextPages := []
  post := fun _ _ => Except.ok ()

/-- A subscription product whose `productId` matches no subscription in any
group: one group, listed successfully, containing only an unrelated
subscription. -/
def envMiss : VendorEnv :=
  { baseVendorEnv with
    iapDetails := fun _ => Except.ok ⟨subscriptionType, "com.app.sub"⟩
    groupsList := Except.ok ["g1"]
    groupSubs := fun _ => Except.ok [⟨"sub1", "com.other"⟩]
    prices := fun _ _ => Except.ok ["P"]
    ppFirstPage := fun _ _ _ => Except.ok ⟨[⟨"pp1", 5, "USD"⟩], none⟩ }

/-- A subscription product with two groups where listing the first group's
subscriptions fails with a 500 and the second group contains the match. -/
def envSkip : VendorEnv :=
  { baseVendorEnv with
    iapDetails := fun _ => Except.ok ⟨subscriptionType, "com.app.sub"⟩
    groupsList := Except.ok ["g1", "g2"]
    groupSubs := fun g =>
      if g = "g1" then Except.error ⟨500, "boom"⟩
      else Except.ok [⟨"sub2", "com.app.sub"⟩]
    prices := fun _ _ => Except.ok ["P"] }

/-- A non-subscription (one-time purchase) product. -/
def envNonsub : VendorEnv :=
  { baseVendorEnv with
    iapDetails := fun _ => Except.ok ⟨"CONSUMABLE", "com.app.otp"⟩
    prices := fun _ _ => Except.ok ["P"] }

/-- Three groups; the first group's only subscription does not match, the
second group's does. -/
def envScan : VendorEnv :=
  { baseVendorEnv with
    iapDetails := fun _ => Except.ok ⟨subscriptionType, "com.app.sub"⟩
    groupsList := Except.ok ["g1", "g2", "g3"]
    groupSubs := fun g =>
      if g = "g1" then Except.ok [⟨"s1", "com.other"⟩]
      else if g = "g2" then Except.ok [⟨"s2", "com.app.sub"⟩]
      else Except.ok [⟨"s3", "com.third"⟩]
    prices := fun _ _ => Except.ok ["P"] }

/-- A subscription product resolved through one group for the update path. -/
def envSub7 : VendorEnv :=
  { baseVendorEnv with
    iapDetails := fun _ => Except.ok ⟨subscriptionType, "com.app.sub"⟩
    groupsList := Except.ok ["g1"]
    groupSubs := fun _ => Except.ok [⟨"sub7", "com.app.sub"⟩] }

/-- A product fetch that fails with a 404. -/
def envDetails404 : VendorEnv :=
  { baseVendorEnv with iapDetails := fun _ => Except.error ⟨404, "nf"⟩ }

/-- A subscription product whose groups-list fetch fails with a 500. -/
def envGroups500 : VendorEnv :=
  { baseVendorEnv with
    iapDetails := fun _ => Except.ok ⟨subscriptionType, "com.app.sub"⟩
    groupsList := Except.error ⟨500, "down"⟩ }

theorem pickBy_le {α : Type} (f : α → ℚ) (l : List α) : ∀ b, f (pickBy f b l) ≤ f b := by
  induction l with
  | nil => intro b; exact le_refl _
  | cons a l ih =>
    intro b
    by_cases h : f a < f b
    · simp only [pickBy, if_pos h]
      exact le_trans (ih a) h.le
    · simp only [pickBy, if_neg h]
      exact ih b

theorem pickBy_min {α : Type} (f : α → ℚ) (l : List α) :
    ∀ b x, x ∈ l → f (pickBy f b l) ≤ f x := by
  induction l with
  | nil => intro b x hx; cases hx
  | cons a l ih =>
    intro b x hx
    rcases List.mem_cons.mp hx with rfl | hx
    · by_cases h : f x < f b
      · simp only [pickBy, if_pos h]
        exact pickBy_le f l x
      · simp only [pickBy, if_neg h]
        exact le_trans (pickBy_le f l b) (le_of_not_lt h)
    · by_cases h : f a < f b
      · simp only [pickBy, if_pos h]
        exact ih a x hx
      · simp only [pickBy, if_neg h]
        exact ih b x hx

/-- Claim C4: the code evaluated at a subscription product whose product
identifier matches no subscription in any group.  Only `updatePrice` fails
with the "could not find associated subscription" error; `getCurrentPrices`
proceeds (its guard `if (!resourceId)` is dead, `resourceId` having been
initialized to the non-empty `iapId`) and fetches prices from the
one-time-purchase endpoint, and `fetchPricePointsForIAPAndTerritory` has no
guard at all and proceeds with `resourceId = iapId`. -/
theorem resolution_notfound_bug_eval :
    getCurrentPrices envMiss "1234"
      = Except.ok ⟨["P"], subscriptionType, "inAppPurchases", "1234", ["g1"]⟩
    ∧ fetchPricePointsForIAPAndTerritory envMiss "1234" "US"
      = Except.ok ⟨[⟨"pp1", 5, "USD"⟩], "1234", true, ["g1"]⟩
    ∧ updatePrice envMiss 0 "1234" "US" "pp1" false
      = Except.error JsError.resourceNotFound := by
  refine ⟨by decide, by decide, by decide⟩

/-- Claim C5 counterexample: with the first group's subscriptions listing
failing (HTTP 500) and the second group containing the match, resolution does
not abort with an upstream error: the failing group is skipped
(`if (!subsResp.ok) continue`) and `getCurrentPrices` succeeds through the
second group. -/
theorem group_listing_skip_counterexample :
    envSkip.groupSubs "g1" = Except.error ⟨500, "boom"⟩
    ∧ getCurrentPrices envSkip "77"
      = Except.ok ⟨["P"], subscriptionType, "subscriptions", "sub2", ["g1", "g2"]⟩ := by
  exact ⟨by decide, by decide⟩

/-- Claim C5 (amended): a non-success response to the product fetch or to
the subscription-groups listing aborts resolution with an `UpstreamError`
carrying the response status and body (and the embedding performs each call
exactly once — no local retry); but a non-success response when listing a
single group's subscriptions is skipped and the scan continues with the
next group. -/
theorem upstream_abort_amended :
    ∀ (env : VendorEnv) (iapId : String) (st : Nat) (body : String) (d : IapDetails)
      (e : UpstreamError) (g pid : String) (gs : List String),
      (env.iapDetails iapId = Except.error ⟨st, body⟩ →
        getCurrentPrices env iapId
          = Except.error (JsError.upstream "Failed to fetch IAP details" st body))
      ∧ (env.iapDetails iapId = Except.ok d → d.inAppPurchaseType = subscriptionType →
          env.groupsList = Except.error ⟨st, body⟩ →
          getCurrentPrices env iapId
            = Except.error (JsError.upstream "Failed to fetch subscription groups" st body))
      ∧ (env.groupSubs g = Except.error e →
          scanGroups env pid (g :: gs)
            = ((scanGroups env pid gs).1, g :: (scanGroups env pid gs).2)) := by
  intro env iapId st body d e g pid gs
  refine ⟨?_, ?_, ?_⟩
  · intro h
    simp [getCurrentPrices, h]
  · intro h1 h2 h3
    simp [getCurrentPrices, h1, h2, h3]
  · intro h
    simp [scanGroups, h]

/-- Witness for the amended C5: the three behaviours at concrete
environments. -/
theorem upstream_abort_amended_witness :
    getCurrentPrices envDetails404 "1"
      = Except.error (JsError.upstream "Failed to fetch IAP details" 404 "nf")
    ∧ getCurrentPrices envGroups500 "1"
      = Except.error (JsError.upstream "Failed to fetch subscription groups" 500 "down")
    ∧ scanGroups envSkip "p" ["g1"]
      = ((scanGroups envSkip "p" []).1, "g1" :: (scanGroups envSkip "p" []).2) :=
  ⟨(upstream_abort_amended envDetails404 "1" 404 "nf" ⟨"", ""⟩ ⟨0, ""⟩ "" "" []).1 rfl,
   (upstream_abort_amended envGroups500 "1" 500 "down" ⟨subscriptionType, "com.app.sub"⟩
      ⟨0, ""⟩ "" "" []).2.1 rfl rfl rfl,
   (upstream_abort_amended envSkip "1" 0 "" ⟨"", ""⟩ ⟨500, "boom"⟩ "g1" "p" []).2.2 rfl⟩

/-- Claim C6: the price-point fetch follows the `next` link repeatedly and,
when every page succeeds, returns the merge of all pages (concatenation, so
lengths add up and no element is duplicated beyond the pages' own content);
a failing first page fails the whole call with the upstream error, while a
failure of any later page truncates the result to the pages fetched so far. -/
theorem pagination_merge_claim :
    ∀ (p1 p2 p3 : Page) (u1 u2 : Nat) (e : UpstreamError)
      (rest : List (Except UpstreamError Page)),
      p1.next = some u1 → p2.next = some u2 → p3.next = none →
      (p1.data ++ p2.data ++ p3.data).Nodup →
      (∃ merged, fetchAllPricePoints (Except.ok p1) [Except.ok p2, Except.ok p3]
            = Except.ok merged
          ∧ merged = p1.data ++ p2.data ++ p3.data
          ∧ merged.length = p1.data.length + p2.data.length + p3.data.length
          ∧ merged.Nodup)
      ∧ fetchAllPricePoints (Except.error e) rest = Except.error e
      ∧ fetchAllPricePoints (Except.ok p1) (Except.error e :: rest) = Except.ok p1.data
      ∧ fetchAllPricePoints (Except.ok p1) [Except.ok p2, Except.error e]
          = Except.ok (p1.data ++ p2.data) := by
  intro p1 p2 p3 u1 u2 e rest h1 h2 h3 hnd
  refine ⟨⟨p1.data ++ p2.data ++ p3.data, ?_, rfl, by simp [Nat.add_assoc], hnd⟩, rfl, ?_, ?_⟩
  · simp [fetchAllPricePoints, h1, followPages, h2, h3, List.append_assoc]
  · simp [fetchAllPricePoints, h1, followPages]
  · simp [fetchAllPricePoints, h1, followPages, h2]

/-- Witness for C6: three one-element linked pages merge in order; a failed
first page fails; a failed later page truncates. -/
theorem pagination_merge_claim_witness :
    (∃ merged,
        fetchAllPricePoints (Except.ok (⟨[⟨"a", 1, "USD"⟩], some 1⟩ : Page))
            [Except.ok (⟨[⟨"b", 2, "USD"⟩], some 2⟩ : Page),
             Except.ok (⟨[⟨"c", 3, "USD"⟩], none⟩ : Page)]
          = Except.ok merged
      ∧ merged = [⟨"a", 1, "USD"⟩] ++ [⟨"b", 2, "USD"⟩] ++ [⟨"c", 3, "USD"⟩]
      ∧ merged.length
          = ([⟨"a", 1, "USD"⟩] : List PricePointOption).length
            + ([⟨"b", 2, "USD"⟩] : List PricePointOption).length
            + ([⟨"c", 3, "USD"⟩] : List PricePointOption).length
      ∧ merged.Nodup)
    ∧ fetchAllPricePoints (Except.error ⟨500, "x"⟩) []
        = Except.error (⟨500, "x"⟩ : UpstreamError)
    ∧ fetchAllPricePoints (Except.ok (⟨[⟨"a", 1, "USD"⟩], some 1⟩ : Page))
        (Except.error ⟨500, "x"⟩ :: [])
        = Except.ok [⟨"a", 1, "USD"⟩]
    ∧ fetchAllPricePoints (Except.ok (⟨[⟨"a", 1, "USD"⟩], some 1⟩ : Page))
        [Except.ok (⟨[⟨"b", 2, "USD"⟩], some 2⟩ : Page), Except.error ⟨500, "x"⟩]
        = Except.ok ([⟨"a", 1, "USD"⟩] ++ [⟨"b", 2, "USD"⟩]) :=
  pagination_merge_claim ⟨[⟨"a", 1, "USD"⟩], some 1⟩ ⟨[⟨"b", 2, "USD"⟩], some 2⟩
    ⟨[⟨"c", 3, "USD"⟩], none⟩ 1 2 ⟨500, "x"⟩ [] rfl rfl rfl (by decide)

/-! ## Lemmas: the start-date formatting -/

theorem digitChar_ne_T (d : Nat) : digitChar d ≠ 'T' := by
  unfold digitChar
  split_ifs <;> decide

theorem mem_natDigitCharsAux (c : Char) :
    ∀ fuel n, c ∈ natDigitCharsAux fuel n → ∃ d, c = digitChar d := by
  intro fuel
  induction fuel with
  | zero => intro n h; cases h
  | succ fuel ih =>
    intro n h
    cases n with
    | zero => cases h
    | succ m =>
      have he : natDigitCharsAux (fuel + 1) (m + 1)
          = natDigitCharsAux fuel ((m + 1) / 10) ++ [digitChar ((m + 1) % 10)] := rfl
      rw [he] at h
      rcases List.mem_append.mp h with h1 | h2
      · exact ih _ h1
      · rcases List.mem_singleton.mp h2 with rfl
        exact ⟨_, rfl⟩

theorem not_T_mem_natDigitChars (n : Nat) : 'T' ∉ natDigitChars n := by
  intro h
  rw [natDigitChars] at h
  split at h
  · rcases List.mem_singleton.mp h with h'
    exact absurd h' (by decide)
  · rcases mem_natDigitCharsAux _ _ _ h with ⟨d, hd⟩
    exact digitChar_ne_T d hd.symm

theorem not_T_mem_padNum (w n : Nat) : 'T' ∉ padNum w n := by
  intro h
  rw [padNum] at h
  rcases List.mem_append.mp h with h1 | h2
  · exact absurd (List.eq_of_mem_replicate h1) (by decide)
  · exact not_T_mem_natDigitChars n h2

theorem not_T_mem_civilDateChars (day : Nat) : 'T' ∉ civilDateChars day := by
  intro h
  rw [civilDateChars] at h
  rcases List.mem_append.mp h with h1 | h2
  · rcases List.mem_append.mp h1 with h3 | h4
    · exact not_T_mem_padNum _ _ h3
    · rcases List.mem_cons.mp h4 with h5 | h6
      · exact absurd h5 (by decide)
      · exact not_T_mem_padNum _ _ h6
  · rcases List.mem_cons.mp h2 with h7 | h8
    · exact absurd h7 (by decide)
    · exact not_T_mem_padNum _ _ h8

theorem splitChars_append_not_mem (sep : Char) (ys : List Char) :
    ∀ xs, sep ∉ xs → splitChars sep (xs ++ sep :: ys) = xs :: splitChars sep ys := by
  intro xs
  induction xs with
  | nil =>
    intro _
    simp [splitChars]
  | cons x xs ih =>
    intro h
    have hx : ¬(x = sep) := fun he => h (he ▸ List.mem_cons_self x xs)
    have hxs : sep ∉ xs := fun hm => h (List.mem_cons_of_mem x hm)
    show splitChars sep (x :: (xs ++ sep :: ys)) = (x :: xs) :: splitChars sep ys
    simp only [splitChars, List.append_eq]
    rw [ih hxs]
    simp [if_neg hx]

theorem toList_mk (l : List Char) : (String.mk l).toList = l := rfl

theorem jsSplitHead_iso (secs : Nat) :
    jsSplitHead 'T' (jsToISOString secs) = String.mk (civilDateChars (secs / 86400)) := by
  rw [jsSplitHead, jsSplit, jsToISOString, toList_mk,
    splitChars_append_not_mem 'T' _ _ (not_T_mem_civilDateChars _)]
  simp

theorem startDateString_eq (now : Nat) :
    startDateString now = String.mk (civilDateChars (now / 86400 + 2)) := by
  rw [startDateString, jsSplitHead_iso]
  congr 2
  exact Nat.add_mul_div_right now 2 (by norm_num)

/-- Claim C7: every price-update submission computes its start date as today
plus two days, formatted as the calendar date only (the ISO string is cut at
the `'T'`), and builds exactly one of the two mutually exclusive payload
shapes: the subscription payload references the subscription id, the chosen
price-point id, the start date and the `preserveCurrentPrice` flag, while
the one-time-purchase payload references the product id (in its endpoint),
the territory, the chosen price-point id and the start date, with no
grandfathering flag (its payload shape has no such field). -/
theorem update_start_date_payload_claim :
    ∀ (env : VendorEnv) (now : Nat) (iapId territory pricePointId : String)
      (preserve : Bool) (d : IapDetails),
      env.iapDetails iapId = Except.ok d →
      (∀ ep pl, env.post ep pl = Except.ok ()) →
      ( (d.inAppPurchaseType ≠ subscriptionType →
          updatePrice env now iapId territory pricePointId preserve
            = Except.ok (Endpoint.inAppPurchasePrices iapId,
                UpdatePayload.inAppPurchasePrice (startDateString now) territory pricePointId))
      ∧ (∀ groups subId log, d.inAppPurchaseType = subscriptionType →
          env.groupsList = Except.ok groups →
          scanGroups env d.productId groups = (some subId, log) →
          subId ≠ "" →
          updatePrice env now iapId territory pricePointId preserve
            = Except.ok (Endpoint.subscriptionPrices,
                UpdatePayload.subscriptionPrice (startDateString now) preserve
                  subId pricePointId))
      ∧ startDateString now = String.mk (civilDateChars (now / 86400 + 2)) ) := by
  intro env now iapId territory pricePointId preserve d hd hpost
  refine ⟨?_, ?_, startDateString_eq now⟩
  · intro hns
    simp [updatePrice, hd, hns, submitPayload, hpost]
  · intro groups subId log hsub hg hscan hne
    simp [updatePrice, hd, hsub, hg, hscan, hne, submitPayload, hpost]

/-- Witness for C7: the submission built for a concrete one-time purchase
and for a concrete subscription resolved through one group. -/
theorem update_start_date_payload_claim_witness :
    updatePrice envNonsub 0 "42" "US" "pp1" false
      = Except.ok (Endpoint.inAppPurchasePrices "42",
          UpdatePayload.inAppPurchasePrice (startDateString 0) "US" "pp1")
    ∧ updatePrice envSub7 0 "43" "US" "pp2" true
      = Except.ok (Endpoint.subscriptionPrices,
          UpdatePayload.subscriptionPrice (startDateString 0) true "sub7" "pp2") :=
  ⟨(update_start_date_payload_claim envNonsub 0 "42" "US" "pp1" false
      ⟨"CONSUMABLE", "com.app.otp"⟩ rfl (fun _ _ => rfl)).1 (by decide),
   (update_start_date_payload_claim envSub7 0 "43" "US" "pp2" true
      ⟨subscriptionType, "com.app.sub"⟩ rfl (fun _ _ => rfl)).2.1
      ["g1"] "sub7" ["g1"] rfl rfl (by decide) (by decide)⟩

/-- Claim C8: the subscription-group scan is sequential in vendor order and
stops at the first group containing a matching subscription — with the match
in group 2, exactly groups 1 and 2 are queried whatever the remaining groups
are (group 3 is never queried); and for a non-subscription product the
resolved resource id equals the input product id and no group is ever
queried, on every invocation. -/
theorem resolver_short_circuit_claim :
    ∀ (env : VendorEnv) (pid g1 g2 : String) (gs : List String)
      (subs1 subs2 : List SubInfo) (sub : SubInfo),
      env.groupSubs g1 = Except.ok subs1 →
      subs1.find? (fun s => s.productId == pid) = none →
      env.groupSubs g2 = Except.ok subs2 →
      subs2.find? (fun s => s.productId == pid) = some sub →
      ( scanGroups env pid (g1 :: g2 :: gs) = (some sub.id, [g1, g2])
      ∧ ∀ (env2 : VendorEnv) (iapId : String) (d : IapDetails) (r : CurrentPricesResult),
          env2.iapDetails iapId = Except.ok d →
          d.inAppPurchaseType ≠ subscriptionType →
          getCurrentPrices env2 iapId = Except.ok r →
          r.resourceId = iapId ∧ r.resourceType = "inAppPurchases"
            ∧ r.queriedGroups = [] ) := by
  intro env pid g1 g2 gs subs1 subs2 sub h1 h2 h3 h4
  constructor
  · simp [scanGroups, h1, h2, h3, h4]
  · intro env2 iapId d r hd hns hr
    simp only [getCurrentPrices, hd, if_neg hns] at hr
    rw [fetchPricesStep] at hr
    cases hp : env2.prices "inAppPurchases" iapId with
    | error e =>
      rw [hp] at hr
      cases hr
    | ok pd =>
      rw [hp] at hr
      cases hr
      exact ⟨rfl, rfl, rfl⟩

/-- Witness for C8: the concrete three-group environment queries exactly
groups 1 and 2, and a concrete one-time purchase resolves to its own id with
no group queried. -/
theorem resolver_short_circuit_claim_witness :
    scanGroups envScan "com.app.sub" ["g1", "g2", "g3"] = (some "s2", ["g1", "g2"])
    ∧ ((⟨["P"], "CONSUMABLE", "inAppPurchases", "42", []⟩ : CurrentPricesResult).resourceId
          = "42"
      ∧ (⟨["P"], "CONSUMABLE", "inAppPurchases", "42", []⟩ : CurrentPricesResult).resourceType
          = "inAppPurchases"
      ∧ (⟨["P"], "CONSUMABLE", "inAppPurchases", "42", []⟩ : CurrentPricesResult).queriedGroups
          = []) :=
  ⟨(resolver_short_circuit_claim envScan "com.app.sub" "g1" "g2" ["g3"]
      [⟨"s1", "com.other"⟩] [⟨"s2", "com.app.sub"⟩] ⟨"s2", "com.app.sub"⟩
      rfl (by decide) rfl (by decide)).1,
   (resolver_short_circuit_claim envScan "com.app.sub" "g1" "g2" ["g3"]
      [⟨"s1", "com.other"⟩] [⟨"s2", "com.app.sub"⟩] ⟨"s2", "com.app.sub"⟩
      rfl (by decide) rfl (by decide)).2 envNonsub "42" ⟨"CONSUMABLE", "com.app.otp"⟩
      ⟨["P"], "CONSUMABLE", "inAppPurchases", "42", []⟩ rfl (by decide) (by decide)⟩
